import Mathlib

/-!
# Verification of the travel-booking dashboard aggregation logic

Shallow embedding of `src/app.py`: the data model is a pandas-like table
(ordered rows, dynamic column set), and the operations are the load/normalize
step, the status filter, and the seven aggregate views the script renders.

Modelling conventions:
* A cell value is a string, an integer amount, a date (an integer count of
  days, chosen so that day 0 is a Monday), or the null/NaN marker.
* `pd.to_datetime(col, errors='coerce')` is modelled as: a date value stays a
  date, anything else (including unparsable text) coerces to null.
* pandas `groupby` drops null keys, `value_counts` drops null values, and
  `Series.sum` treats nulls as contributing 0; the embedding reproduces each.
* pandas `agg('first')` returns the first non-null value of the group.
* Sorting is modelled with `List.insertionSort`; the script's sort order on
  ties is an unspecified implementation detail and no claim depends on it.
-/

inductive Value where
  | str : String → Value
  | num : Int → Value
  | date : Int → Value
  | null : Value
deriving DecidableEq, Repr

/-- A row maps column names to cell values (first binding wins on lookup). -/
def Row : Type := List (String × Value)

instance : DecidableEq Row := inferInstanceAs (DecidableEq (List (String × Value)))

/-- A table: a dynamic column set plus an ordered list of rows. -/
structure Table where
  cols : List String
  rows : List Row
deriving DecidableEq

def emptyTable : Table := { cols := [], rows := [] }

def hasCol (t : Table) (c : String) : Bool := t.cols.contains c

/-- Read a cell; a column missing from the row reads as null (NaN). -/
def getCell (r : Row) (c : String) : Value := ((r : List (String × Value)).lookup c).getD Value.null

/-- Write a cell, replacing any previous binding for the column. -/
def setCell (r : Row) (c : String) (v : Value) : Row :=
  (c, v) :: (r : List (String × Value)).filter (fun p => !(p.1 == c))

theorem getCell_setCell_same (r : Row) (c : String) (v : Value) :
    getCell (setCell r c v) c = v := by
  simp [getCell, setCell, List.lookup]

theorem lookup_filter_col (c c' : String) (h : (c' == c) = false) :
    ∀ l : List (String × Value),
      List.lookup c' (l.filter (fun p => !(p.1 == c))) = List.lookup c' l
  | [] => rfl
  | p :: ps => by
    by_cases hp : (p.1 == c) = true
    · have hne : (c' == p.1) = false := by
        have h1 : p.1 = c := by simpa using hp
        simpa [h1] using h
      simp only [List.filter_cons, hp, Bool.not_true, List.lookup, hne]
      exact lookup_filter_col c c' h ps
    · simp only [List.filter_cons, Bool.not_eq_true', eq_false_of_ne_true hp, Bool.not_false,
        List.lookup]
      cases hc : c' == p.1 with
      | true => rfl
      | false => exact lookup_filter_col c c' h ps

theorem getCell_setCell_other (r : Row) (c c' : String) (v : Value) (h : c' ≠ c) :
    getCell (setCell r c v) c' = getCell r c' := by
  have hb : (c' == c) = false := by simpa using h
  simp only [getCell, setCell, List.lookup, hb]
  rw [lookup_filter_col c c' hb]

-- ---------------------------------------------------------------------------
-- Status filter (src/app.py lines 57-66)
-- ---------------------------------------------------------------------------

/-- `df['Status'].dropna().unique().tolist()`: the distinct non-null Status
values (the list is used as a set; its internal order is immaterial). -/
def distinctStatuses (t : Table) : List Value :=
  ((t.rows.map (fun r => getCell r "Status")).filter (fun v => !(v == Value.null))).dedup

/-- The sidebar status filter: if a `Status` column exists, keep the rows
whose Status is in the selected list (`df[df['Status'].isin(selected)]`);
otherwise the block is skipped and the table passes through unchanged. -/
def statusFilter (t : Table) (allowed : List Value) : Table :=
  if hasCol t "Status" then
    { t with rows := t.rows.filter (fun r => allowed.contains (getCell r "Status")) }
  else t

-- ---------------------------------------------------------------------------
-- KPI metrics (src/app.py lines 71-80)
-- ---------------------------------------------------------------------------

/-- `Series.sum()` over `Net Amount`: nulls (and non-numeric cells) add 0. -/
def amountOf : Value → Int
  | Value.num n => n
  | _ => 0

def netSum (rs : List Row) : Int := (rs.map (fun r => amountOf (getCell r "Net Amount"))).sum

structure KPIs where
  total : Nat
  revenue : Option Int
  confirmed : Option Nat
  cancelled : Option Nat
deriving DecidableEq, Repr

/-- The four KPI metrics: total row count always; revenue only when
`Net Amount` exists; confirmed/cancelled counts (exact string comparison
against "Booked" / "Cancel") only when `Status` exists. -/
def kpis (t : Table) : KPIs :=
  { total := t.rows.length
    revenue := if hasCol t "Net Amount" then some (netSum t.rows) else none
    confirmed :=
      if hasCol t "Status" then
        some ((t.rows.filter (fun r => getCell r "Status" == Value.str "Booked")).length)
      else none
    cancelled :=
      if hasCol t "Status" then
        some ((t.rows.filter (fun r => getCell r "Status" == Value.str "Cancel")).length)
      else none }

-- ---------------------------------------------------------------------------
-- Top booking channels (src/app.py lines 89-98)
-- ---------------------------------------------------------------------------

/-- Descending order on counted pairs (`value_counts` / `sort_values` order). -/
def cntGE (a b : Value × Nat) : Prop := b.2 ≤ a.2

instance : DecidableRel cntGE := fun a b => inferInstanceAs (Decidable (b.2 ≤ a.2))

instance : IsTotal (Value × Nat) cntGE := ⟨fun a b => le_total b.2 a.2⟩

instance : IsTrans (Value × Nat) cntGE := ⟨fun _ _ _ h1 h2 => le_trans h2 h1⟩

/-- `Series.value_counts()`: occurrence counts of the distinct non-null
values, sorted descending by count. -/
def valueCounts (vs : List Value) : List (Value × Nat) :=
  ((vs.filter (fun v => !(v == Value.null))).dedup.map (fun k => (k, vs.count k))).insertionSort
    cntGE

/-- `df['Booked By'].value_counts().head(10)`, produced only when the
`Booked By` column exists. -/
def topChannels (t : Table) : Option (List (Value × Nat)) :=
  if hasCol t "Booked By" then
    some ((valueCounts (t.rows.map (fun r => getCell r "Booked By"))).take 10)
  else none

-- ---------------------------------------------------------------------------
-- Revenue groupings (src/app.py lines 148-202)
-- ---------------------------------------------------------------------------

/-- Descending order on summed pairs (`sort_values(ascending=False)`). -/
def revGE (a b : Value × Int) : Prop := b.2 ≤ a.2

instance : DecidableRel revGE := fun a b => inferInstanceAs (Decidable (b.2 ≤ a.2))

instance : IsTotal (Value × Int) revGE := ⟨fun a b => le_total b.2 a.2⟩

instance : IsTrans (Value × Int) revGE := ⟨fun _ _ _ h1 h2 => le_trans h2 h1⟩

/-- `df.groupby(keyCol)['Net Amount'].sum()`: one entry per distinct non-null
key (pandas groupby drops null keys), paired with the `Net Amount` sum over
the key's rows. -/
def groupSum (t : Table) (keyCol : String) : List (Value × Int) :=
  ((t.rows.map (fun r => getCell r keyCol)).filter (fun v => !(v == Value.null))).dedup.map
    (fun k => (k, netSum (t.rows.filter (fun r => getCell r keyCol == k))))

/-- Top routes by revenue: group, sum, sort descending, head(10). -/
def routeRev (t : Table) : Option (List (Value × Int)) :=
  if hasCol t "Route" && hasCol t "Net Amount" then
    some (((groupSum t "Route").insertionSort revGE).take 10)
  else none

/-- Revenue by category: group and sum only — no sort by metric, no head. -/
def catRev (t : Table) : Option (List (Value × Int)) :=
  if hasCol t "Category" && hasCol t "Net Amount" then some (groupSum t "Category")
  else none

/-- Top drivers by revenue: group, sum, sort descending, head(10). -/
def driverRev (t : Table) : Option (List (Value × Int)) :=
  if hasCol t "Drivers" && hasCol t "Net Amount" then
    some (((groupSum t "Drivers").insertionSort revGE).take 10)
  else none

-- ---------------------------------------------------------------------------
-- Weekday demand (src/app.py lines 111-138)
-- ---------------------------------------------------------------------------

def dayOrder : List String :=
  ["Monday", "Tuesday", "Wednesday", "Thursday", "Friday", "Saturday", "Sunday"]

/-- `Series.dt.day_name()`: dates are integers with day 0 a Monday, so the
weekday name is indexed by the residue mod 7; null (NaT) stays null. -/
def weekdayName : Value → Value
  | Value.date d => Value.str (dayOrder.getD (d % 7).toNat "Monday")
  | _ => Value.null

/-- `.reindex(day_order).fillna(0)`: the count recorded for a key, 0 when the
key is absent from the counted series. -/
def lookupCount (counts : List (Value × Nat)) (k : Value) : Nat :=
  ((counts.find? (fun p => p.1 == k)).map (fun p => p.2)).getD 0

/-- The weekday-demand view: derive the `Weekday` series from `Journey Date`,
count it, and reindex onto the fixed Monday..Sunday order filling gaps with
0.  Produced only when `Journey Date` exists. -/
def weekdayDemand (t : Table) : Option (List (String × Nat)) :=
  if hasCol t "Journey Date" then
    some (dayOrder.map (fun d =>
      (d, lookupCount
        (valueCounts (t.rows.map (fun r => weekdayName (getCell r "Journey Date"))))
        (Value.str d))))
  else none

-- ---------------------------------------------------------------------------
-- Churn analysis (src/app.py lines 210-219)
-- ---------------------------------------------------------------------------

structure ChurnRow where
  phone : Value
  cancels : Nat
  name : Value
deriving DecidableEq, Repr

/-- `agg('first')` on the `Name` column of a group: the first non-null value,
null when every value of the group is null. -/
def firstName (rs : List Row) : Value :=
  ((rs.map (fun r => getCell r "Name")).find? (fun v => !(v == Value.null))).getD Value.null

/-- The group keys of `df.groupby('Phone number')`: the distinct non-null
phone numbers (pandas groupby drops null keys). -/
def phoneKeys (t : Table) : List Value :=
  ((t.rows.map (fun r => getCell r "Phone number")).filter (fun v => !(v == Value.null))).dedup

/-- The aggregate record of one phone-number group: the count of the group's
rows whose `Status` is exactly "Cancel", and the first non-null `Name`. -/
def churnGroup (t : Table) (k : Value) : ChurnRow :=
  { phone := k
    cancels := ((t.rows.filter (fun r => getCell r "Phone number" == k)).filter
        (fun r => getCell r "Status" == Value.str "Cancel")).length
    name := firstName (t.rows.filter (fun r => getCell r "Phone number" == k)) }

/-- `df.groupby('Phone number').agg(...)`: one aggregate record per group. -/
def churnGroups (t : Table) : List ChurnRow :=
  (phoneKeys t).map (churnGroup t)

def churnGE (a b : ChurnRow) : Prop := b.cancels ≤ a.cancels

instance : DecidableRel churnGE := fun a b => inferInstanceAs (Decidable (b.cancels ≤ a.cancels))

instance : IsTotal ChurnRow churnGE := ⟨fun a b => le_total b.cancels a.cancels⟩

instance : IsTrans ChurnRow churnGE := ⟨fun _ _ _ h1 h2 => le_trans h2 h1⟩

/-- Sort all groups descending by cancellations, then keep those with at
least 2 (`churn_data[churn_data['Total_Cancellations'] >= 2]`). -/
def highRiskList (t : Table) : List ChurnRow :=
  ((churnGroups t).insertionSort churnGE).filter (fun g => 2 ≤ g.cancels)

/-- The churn block.  It runs only when `Phone number` and `Status` exist
(`none` otherwise).  Its `agg` names the `Name` column unconditionally, so
when `Name` is absent pandas raises `KeyError` — modelled as `Except.error`.
Otherwise it reports the pre-truncation count of high-risk groups alongside
the first 10 of them. -/
def churnRisk (t : Table) : Option (Except String (List ChurnRow × Nat)) :=
  if hasCol t "Phone number" && hasCol t "Status" then
    if hasCol t "Name" then
      some (Except.ok ((highRiskList t).take 10, (highRiskList t).length))
    else some (Except.error "KeyError: Name")
  else none

-- ---------------------------------------------------------------------------
-- load_data and the render pass (src/app.py lines 20-50)
-- ---------------------------------------------------------------------------

/-- `pd.to_datetime(col, errors='coerce')`: a date survives, anything else
(unparsable text, numbers, null) coerces to the null marker. -/
def coerceDate : Value → Value
  | Value.date d => Value.date d
  | _ => Value.null

/-- Apply `f` to every cell of column `c`, when the column exists. -/
def mapCol (t : Table) (c : String) (f : Value → Value) : Table :=
  if hasCol t c then
    { t with rows := t.rows.map (fun r => setCell r c (f (getCell r c))) }
  else t

/-- The date-coercion loop over the three known date columns, in the
script's order. -/
def coerceDates (t : Table) : Table :=
  mapCol (mapCol (mapCol t "Journey Date" coerceDate) "Booked On" coerceDate) "Issued On"
    coerceDate

/-- `(df['Journey Date'] - df['Booked On']).dt.days`: an integer day
difference when both dates are present, null (NaN) when either is NaT. -/
def advanceDays : Value → Value → Value
  | Value.date j, Value.date b => Value.num (j - b)
  | Value.date _, _ => Value.null
  | _, _ => Value.null

/-- Add the derived `Advance Days` column when both source columns exist. -/
def addAdvanceDays (t : Table) : Table :=
  if hasCol t "Journey Date" && hasCol t "Booked On" then
    { cols := t.cols ++ ["Advance Days"]
      rows := t.rows.map (fun r =>
        setCell r "Advance Days"
          (advanceDays (getCell r "Journey Date") (getCell r "Booked On"))) }
  else t

/-- `load_data()`.  The input is the outcome of reading the spreadsheet:
`none` when the file is missing, unreadable or unparsable (both the
`os.path.exists` guard and the `except` branch return an empty frame after
showing `st.error`), `some raw` when the read succeeded.  The `Bool` is the
user-facing error signal. -/
def load_data (input : Option Table) : Table × Bool :=
  match input with
  | none => (emptyTable, true)
  | some raw => (addAdvanceDays (coerceDates raw), false)

structure Views where
  kpi : KPIs
  channels : Option (List (Value × Nat))
  weekday : Option (List (String × Nat))
  routes : Option (List (Value × Int))
  categories : Option (List (Value × Int))
  drivers : Option (List (Value × Int))
  churn : Option (Except String (List ChurnRow × Nat))

def computeViews (t : Table) : Views :=
  { kpi := kpis t
    channels := topChannels t
    weekday := weekdayDemand t
    routes := routeRev t
    categories := catRev t
    drivers := driverRev t
    churn := churnRisk t }

inductive RenderResult where
  | halted : RenderResult
  | rendered : Views → RenderResult

/-- One render pass of the script: load, stop on an empty frame
(`if df.empty: st.stop()`) before any view is computed, otherwise apply the
default status filter and compute every view. -/
def renderPass (input : Option Table) : Bool × RenderResult :=
  let loaded := load_data input
  if loaded.1.rows.isEmpty then (loaded.2, RenderResult.halted)
  else
    (loaded.2,
      RenderResult.rendered
        (computeViews (statusFilter loaded.1 (distinctStatuses loaded.1))))

-- ---------------------------------------------------------------------------
-- Concrete example tables used by witnesses and counterexamples
-- ---------------------------------------------------------------------------

/-- A table with no `Status` column. -/
def exNoStatusT : Table := { cols := ["Name"], rows := [[("Name", Value.str "A")]] }

/-- A one-row table whose only `Status` value is null. -/
def exNullStatusT : Table := { cols := ["Status"], rows := [[("Status", Value.null)]] }

/-- A table mixing non-null and null `Status` values. -/
def exMixedT : Table :=
  { cols := ["Status"]
    rows := [[("Status", Value.str "Booked")], [("Status", Value.null)],
      [("Status", Value.str "Cancel")]] }

/-- The spec's concrete scenario: three rows for phone "555-0100" named
"Jane" with statuses Booked, Cancel, Cancel. -/
def exChurnT : Table :=
  { cols := ["Phone number", "Status", "Name"]
    rows :=
      [[("Phone number", Value.str "555-0100"), ("Status", Value.str "Booked"),
        ("Name", Value.str "Jane")],
       [("Phone number", Value.str "555-0100"), ("Status", Value.str "Cancel"),
        ("Name", Value.str "Jane")],
       [("Phone number", Value.str "555-0100"), ("Status", Value.str "Cancel"),
        ("Name", Value.str "Jane")]] }

-- ---------------------------------------------------------------------------
-- Claims
-- ---------------------------------------------------------------------------

/-- **C1 (counterexample)**: with the default allowed set (the distinct
non-null Status values) the filter does not return the table unchanged: a
row whose Status is null is dropped, because null is never a member of the
default list. -/
theorem statusFilter_default_drops_null_row :
    statusFilter exNullStatusT (distinctStatuses exNullStatusT) ≠ exNullStatusT := by
  decide

/-- **C1 (amended)**: filtering with the default allowed set keeps exactly
the rows whose Status value is non-null, in input order (and leaves the
column set unchanged); rows whose Status is null are dropped. -/
theorem statusFilter_default_keeps_nonnull (t : Table) (h : hasCol t "Status" = true) :
    (statusFilter t (distinctStatuses t)).cols = t.cols ∧
      (statusFilter t (distinctStatuses t)).rows =
        t.rows.filter (fun r => !(getCell r "Status" == Value.null)) := by
  refine ⟨by simp [statusFilter, h], ?_⟩
  simp only [statusFilter, h, if_pos]
  apply List.filter_congr
  intro r hr
  by_cases hnull : getCell r "Status" = Value.null
  · have hmem : Value.null ∉ distinctStatuses t := by
      simp [distinctStatuses, List.mem_dedup, List.mem_filter]
    rw [hnull]
    simp [List.contains, hmem]
  · have hmem : getCell r "Status" ∈ distinctStatuses t := by
      rw [distinctStatuses, List.mem_dedup, List.mem_filter]
      exact ⟨List.mem_map.mpr ⟨r, hr, rfl⟩, by simp [hnull]⟩
    simp [List.contains, hmem, hnull]

/-- **C1 (amended, witness)**: on a table with statuses Booked, null, Cancel
the default filter keeps the two non-null rows in order. -/
theorem statusFilter_default_keeps_nonnull_witness :
    (statusFilter exMixedT (distinctStatuses exMixedT)).cols = exMixedT.cols ∧
      (statusFilter exMixedT (distinctStatuses exMixedT)).rows =
        exMixedT.rows.filter (fun r => !(getCell r "Status" == Value.null)) :=
  statusFilter_default_keeps_nonnull exMixedT (by decide)

/-- **C5**: `total_bookings` is the row count of the table it is given, with
no column requirement; and when `Status` exists, `confirmed`/`cancelled` are
the counts of rows whose Status is exactly the string "Booked" / "Cancel"
(any other label lands in neither count). -/
theorem kpis_spec (t : Table) :
    (kpis t).total = t.rows.length ∧
      (hasCol t "Status" = true →
        (kpis t).confirmed =
            some (t.rows.countP (fun r => getCell r "Status" == Value.str "Booked")) ∧
          (kpis t).cancelled =
            some (t.rows.countP (fun r => getCell r "Status" == Value.str "Cancel"))) := by
  refine ⟨rfl, fun h => ⟨?_, ?_⟩⟩ <;> simp [kpis, h, List.countP_eq_length_filter]

/-- **C5 (witness)**: on the spec's three-row scenario (Booked, Cancel,
Cancel, plus one mislabelled lowercase row would count in neither) the KPIs
come out as total 3, confirmed 1, cancelled 2. -/
theorem kpis_spec_witness :
    (kpis exChurnT).total = exChurnT.rows.length ∧
      (kpis exChurnT).confirmed =
          some (exChurnT.rows.countP (fun r => getCell r "Status" == Value.str "Booked")) ∧
        (kpis exChurnT).cancelled =
          some (exChurnT.rows.countP (fun r => getCell r "Status" == Value.str "Cancel")) :=
  ⟨(kpis_spec exChurnT).1, (kpis_spec exChurnT).2 (by decide)⟩

/-- **C8**: when the table has no `Status` column the filter block is
skipped, so the filter is the identity for any allowed set. -/
theorem statusFilter_identity_no_status (t : Table) (allowed : List Value)
    (h : hasCol t "Status" = false) : statusFilter t allowed = t := by
  simp [statusFilter, h]

/-- **C8 (witness)**: identity on a concrete status-less table. -/
theorem statusFilter_identity_no_status_witness :
    hasCol exNoStatusT "Status" = false ∧
      statusFilter exNoStatusT [Value.str "Booked"] = exNoStatusT :=
  ⟨by decide, statusFilter_identity_no_status exNoStatusT [Value.str "Booked"] (by decide)⟩

/-- **C9**: a missing/unreadable input yields the empty table plus the
user-facing error signal (no exception escapes: `load_data` is total), and
whenever the loaded table is empty the render pass halts before computing
any view. -/
theorem load_failure_halts :
    load_data none = (emptyTable, true) ∧
      ∀ input, (load_data input).1.rows.isEmpty = true →
        renderPass input = ((load_data input).2, RenderResult.halted) := by
  refine ⟨rfl, fun input h => ?_⟩
  simp [renderPass, h]

/-- **C9 (witness)**: on a failed read the pass reports the error and halts. -/
theorem load_failure_halts_witness :
    renderPass none = (true, RenderResult.halted) :=
  load_failure_halts.2 none rfl

/-- A table with `Phone number` and `Status` but no `Name` column. -/
def exNoNameT : Table :=
  { cols := ["Phone number", "Status"]
    rows :=
      [[("Phone number", Value.str "555-0100"), ("Status", Value.str "Cancel")],
       [("Phone number", Value.str "555-0100"), ("Status", Value.str "Cancel")]] }

/-- **C2 (code bug)**: the churn block runs whenever `Phone number` and
`Status` exist, but its `agg` names the `Name` column unconditionally, so on
a table without `Name` pandas raises `KeyError` instead of producing the
roster with a null name field as the spec requires. -/
theorem churnRisk_keyerror_when_name_missing :
    churnRisk exNoNameT = some (Except.error "KeyError: Name") := by
  rfl

theorem mapCol_cols (t : Table) (c : String) (f : Value → Value) :
    (mapCol t c f).cols = t.cols := by
  simp only [mapCol]
  split <;> rfl

theorem coerceDates_cols (t : Table) : (coerceDates t).cols = t.cols := by
  simp [coerceDates, mapCol_cols]

theorem hasCol_coerceDates (t : Table) (c : String) :
    hasCol (coerceDates t) c = hasCol t c := by
  simp [hasCol, coerceDates_cols]

theorem advanceDays_null_left (v : Value) : advanceDays Value.null v = Value.null := by
  cases v <;> rfl

theorem advanceDays_null_right (v : Value) : advanceDays v Value.null = Value.null := by
  cases v <;> rfl

/-- **C7**: after loading a table that has both `Journey Date` and
`Booked On`, every row's `Advance Days` cell is the integer day difference
Journey Date − Booked On when both (coerced) dates are present, and null
when either is null. -/
theorem advanceDays_spec (raw : Table)
    (hj : hasCol raw "Journey Date" = true) (hb : hasCol raw "Booked On" = true) :
    ∀ r ∈ (load_data (some raw)).1.rows,
      (∀ a b, getCell r "Journey Date" = Value.date a →
          getCell r "Booked On" = Value.date b →
          getCell r "Advance Days" = Value.num (a - b)) ∧
        ((getCell r "Journey Date" = Value.null ∨ getCell r "Booked On" = Value.null) →
          getCell r "Advance Days" = Value.null) := by
  intro r hr
  have hj' : hasCol (coerceDates raw) "Journey Date" = true := by
    rw [hasCol_coerceDates]; exact hj
  have hb' : hasCol (coerceDates raw) "Booked On" = true := by
    rw [hasCol_coerceDates]; exact hb
  simp only [load_data, addAdvanceDays, hj', hb', Bool.and_self, if_pos] at hr
  obtain ⟨r0, _, rfl⟩ := List.mem_map.mp hr
  refine ⟨?_, ?_⟩
  · intro a b ha hbo
    rw [getCell_setCell_other _ _ "Journey Date" _ (by decide)] at ha
    rw [getCell_setCell_other _ _ "Booked On" _ (by decide)] at hbo
    rw [getCell_setCell_same, ha, hbo]
    rfl
  · intro hnull
    rw [getCell_setCell_same]
    rcases hnull with h | h
    · rw [getCell_setCell_other _ _ "Journey Date" _ (by decide)] at h
      rw [h, advanceDays_null_left]
    · rw [getCell_setCell_other _ _ "Booked On" _ (by decide)] at h
      rw [h, advanceDays_null_right]

instance : Inhabited Row := ⟨([] : List (String × Value))⟩

/-- A raw table whose first row travels 3 days after booking. -/
def exRawT : Table :=
  { cols := ["Journey Date", "Booked On"]
    rows := [[("Journey Date", Value.date 10), ("Booked On", Value.date 7)]] }

/-- **C7 (witness)**: the loaded example row gets `Advance Days` = 3. -/
theorem advanceDays_spec_witness :
    getCell ((load_data (some exRawT)).1.rows.headI) "Advance Days" = Value.num 3 :=
  (advanceDays_spec exRawT (by decide) (by decide) _ (by decide)).1 10 7 (by decide)
    (by decide)

theorem churnRisk_ok_roster (t : Table) (roster : List ChurnRow) (total : Nat)
    (h : churnRisk t = some (Except.ok (roster, total))) :
    roster = (highRiskList t).take 10 ∧ total = (highRiskList t).length := by
  by_cases h1 : (hasCol t "Phone number" && hasCol t "Status") = true
  · rw [churnRisk, if_pos h1] at h
    by_cases h2 : hasCol t "Name" = true
    · rw [if_pos h2] at h
      simp only [Option.some.injEq, Except.ok.injEq, Prod.mk.injEq] at h
      exact ⟨h.1.symm, h.2.symm⟩
    · rw [if_neg h2] at h
      simp at h
  · rw [churnRisk, if_neg h1] at h
    simp at h

theorem mem_churnGroups_phone (t : Table) (g : ChurnRow) (hg : g ∈ churnGroups t) :
    g.phone ≠ Value.null := by
  obtain ⟨k, hk, rfl⟩ := List.mem_map.mp hg
  have h2 := (List.mem_filter.mp (List.mem_dedup.mp hk)).2
  simp only [churnGroup]
  intro hc
  rw [hc] at h2
  simp at h2

theorem mem_highRiskList (t : Table) (g : ChurnRow) (hg : g ∈ highRiskList t) :
    g ∈ churnGroups t ∧ 2 ≤ g.cancels := by
  have h := List.mem_filter.mp hg
  exact ⟨(List.mem_insertionSort churnGE).mp h.1, by simpa using h.2⟩

/-- **C3**: whenever the churn block produces a roster, every entry has at
least 2 cancellations, the roster length is min(10, number of qualifying
groups), the roster is sorted non-increasing by cancellations, and the
reported total is the number of qualifying groups before truncation. -/
theorem churnRisk_roster_spec (t : Table) (roster : List ChurnRow) (total : Nat)
    (h : churnRisk t = some (Except.ok (roster, total))) :
    (∀ g ∈ roster, 2 ≤ g.cancels) ∧
      roster.length = min 10 ((churnGroups t).countP (fun g => 2 ≤ g.cancels)) ∧
      List.Sorted churnGE roster ∧
      total = (churnGroups t).countP (fun g => 2 ≤ g.cancels) := by
  obtain ⟨hro, hto⟩ := churnRisk_ok_roster t roster total h
  have hlen : (highRiskList t).length = (churnGroups t).countP (fun g => 2 ≤ g.cancels) := by
    rw [highRiskList, ← List.countP_eq_length_filter]
    exact (List.perm_insertionSort churnGE (churnGroups t)).countP_eq _
  subst hro hto
  refine ⟨?_, ?_, ?_, hlen⟩
  · intro g hgm
    exact (mem_highRiskList t g ((List.take_sublist 10 _).mem hgm)).2
  · rw [List.length_take, hlen]
  · exact ((List.sorted_insertionSort churnGE (churnGroups t)).filter _).sublist
      (List.take_sublist 10 _)

/-- **C3 (witness)**: on the spec's scenario the roster is the single entry
(555-0100, 2 cancellations, Jane) and the reported total is 1. -/
theorem churnRisk_roster_spec_witness :
    2 ≤ (ChurnRow.mk (Value.str "555-0100") 2 (Value.str "Jane")).cancels ∧
      ([ChurnRow.mk (Value.str "555-0100") 2 (Value.str "Jane")] : List ChurnRow).length =
        min 10 ((churnGroups exChurnT).countP (fun g => 2 ≤ g.cancels)) ∧
      (1 : Nat) = (churnGroups exChurnT).countP (fun g => 2 ≤ g.cancels) :=
  ⟨(churnRisk_roster_spec exChurnT [⟨Value.str "555-0100", 2, Value.str "Jane"⟩] 1
      rfl).1 _ (by decide),
    (churnRisk_roster_spec exChurnT [⟨Value.str "555-0100", 2, Value.str "Jane"⟩] 1
      rfl).2.1,
    (churnRisk_roster_spec exChurnT [⟨Value.str "555-0100", 2, Value.str "Jane"⟩] 1
      rfl).2.2.2⟩

/-- Drop the rows whose `Phone number` is null. -/
def dropNullPhones (t : Table) : Table :=
  { t with rows := t.rows.filter (fun r => !(getCell r "Phone number" == Value.null)) }

/-- **C10**: rows with a null phone number play no part in the churn
grouping — removing them beforehand leaves every group unchanged — and no
roster entry ever carries a null identifier. -/
theorem churn_excludes_null_phones (t : Table) :
    churnGroups (dropNullPhones t) = churnGroups t ∧
      ∀ roster total, churnRisk t = some (Except.ok (roster, total)) →
        ∀ g ∈ roster, g.phone ≠ Value.null := by
  constructor
  · have hkeys : phoneKeys (dropNullPhones t) = phoneKeys t := by
      simp only [phoneKeys, dropNullPhones, List.filter_map]
      congr 1
      rw [List.filter_filter]
      congr 1
      apply List.filter_congr
      intro r _
      simp [Function.comp]
    have hgrp : ∀ k ∈ phoneKeys t, churnGroup (dropNullPhones t) k = churnGroup t k := by
      intro k hk
      have hknn : (k == Value.null) = false := by
        simpa using (List.mem_filter.mp (List.mem_dedup.mp hk)).2
      have hfil : (dropNullPhones t).rows.filter (fun r => getCell r "Phone number" == k) =
          t.rows.filter (fun r => getCell r "Phone number" == k) := by
        rw [dropNullPhones, List.filter_filter]
        apply List.filter_congr
        intro r _
        cases hpk : getCell r "Phone number" == k with
        | false => simp
        | true =>
          have hek : getCell r "Phone number" = k := by simpa using hpk
          simp [hek, hknn]
      rw [churnGroup, churnGroup, hfil]
    rw [churnGroups, churnGroups, hkeys]
    exact List.map_congr_left hgrp
  · intro roster total h g hgm
    obtain ⟨hro, _⟩ := churnRisk_ok_roster t roster total h
    subst hro
    exact mem_churnGroups_phone t g
      (mem_highRiskList t g ((List.take_sublist 10 _).mem hgm)).1

/-- The spec scenario extended with two null-phone cancelled rows. -/
def exNullPhoneT : Table :=
  { cols := ["Phone number", "Status", "Name"]
    rows := exChurnT.rows ++
      ([[("Phone number", Value.null), ("Status", Value.str "Cancel")],
        [("Phone number", Value.null), ("Status", Value.str "Cancel")]] : List Row) }

/-- **C10 (witness)**: on the extended scenario the null-phone rows change
no group, and the single roster entry's identifier is non-null. -/
theorem churn_excludes_null_phones_witness :
    churnGroups (dropNullPhones exNullPhoneT) = churnGroups exNullPhoneT ∧
      ChurnRow.phone ⟨Value.str "555-0100", 2, Value.str "Jane"⟩ ≠ Value.null :=
  ⟨(churn_excludes_null_phones exNullPhoneT).1,
    (churn_excludes_null_phones exNullPhoneT).2
      [⟨Value.str "555-0100", 2, Value.str "Jane"⟩] 1 rfl _ (by decide)⟩

theorem mem_valueCounts (vs : List Value) (p : Value × Nat) (hp : p ∈ valueCounts vs) :
    p.2 = vs.count p.1 := by
  obtain ⟨k, _, rfl⟩ := List.mem_map.mp ((List.mem_insertionSort cntGE).mp hp)
  rfl

theorem mem_groupSum (t : Table) (c : String) (p : Value × Int) (hp : p ∈ groupSum t c) :
    p.2 = netSum (t.rows.filter (fun r => getCell r c == p.1)) := by
  obtain ⟨k, _, rfl⟩ := List.mem_map.mp hp
  rfl

theorem groupSum_fst (t : Table) (c : String) :
    (groupSum t c).map Prod.fst =
      ((t.rows.map (fun r => getCell r c)).filter (fun v => !(v == Value.null))).dedup := by
  rw [groupSum, List.map_map]
  exact List.map_id _

/-- **C6**: for every table, each of the Channels, Routes and Drivers views,
whenever it is produced, holds at most 10 entries sorted descending by its
metric (occurrence count for Channels, `Net Amount` sum for Routes/Drivers,
recorded in each entry), while the Category view, whenever produced, has
exactly one entry per distinct non-null category — no truncation. -/
theorem topN_spec (t : Table) :
    (∀ lc, topChannels t = some lc →
        lc.length ≤ 10 ∧ List.Sorted cntGE lc ∧
          ∀ p ∈ lc, p.2 = (t.rows.map (fun r => getCell r "Booked By")).count p.1) ∧
      (∀ lr, routeRev t = some lr →
          lr.length ≤ 10 ∧ List.Sorted revGE lr ∧
            ∀ p ∈ lr, p.2 = netSum (t.rows.filter (fun r => getCell r "Route" == p.1))) ∧
      (∀ ld, driverRev t = some ld →
          ld.length ≤ 10 ∧ List.Sorted revGE ld ∧
            ∀ p ∈ ld, p.2 = netSum (t.rows.filter (fun r => getCell r "Drivers" == p.1))) ∧
      ∀ lcat, catRev t = some lcat →
        lcat.map Prod.fst =
            ((t.rows.map (fun r => getCell r "Category")).filter
              (fun v => !(v == Value.null))).dedup ∧
          ∀ p ∈ lcat, p.2 = netSum (t.rows.filter (fun r => getCell r "Category" == p.1)) := by
  refine ⟨fun lc hc => ?_, fun lr hr => ?_, fun ld hd => ?_, fun lcat hcat => ?_⟩
  · have hlc : lc = (valueCounts (t.rows.map (fun r => getCell r "Booked By"))).take 10 := by
      by_cases h : hasCol t "Booked By" = true
      · rw [topChannels, if_pos h, Option.some.injEq] at hc
        exact hc.symm
      · rw [topChannels, if_neg h] at hc
        cases hc
    subst hlc
    refine ⟨?_, ?_, ?_⟩
    · rw [List.length_take]; exact min_le_left _ _
    · exact List.Pairwise.sublist (List.take_sublist 10 _)
        (List.sorted_insertionSort cntGE _)
    · intro p hp
      exact mem_valueCounts _ p ((List.take_sublist 10 _).mem hp)
  · have hlr : lr = ((groupSum t "Route").insertionSort revGE).take 10 := by
      by_cases h : (hasCol t "Route" && hasCol t "Net Amount") = true
      · rw [routeRev, if_pos h, Option.some.injEq] at hr
        exact hr.symm
      · rw [routeRev, if_neg h] at hr
        cases hr
    subst hlr
    refine ⟨?_, ?_, ?_⟩
    · rw [List.length_take]; exact min_le_left _ _
    · exact List.Pairwise.sublist (List.take_sublist 10 _)
        (List.sorted_insertionSort revGE _)
    · intro p hp
      exact mem_groupSum t "Route" p
        ((List.mem_insertionSort revGE).mp ((List.take_sublist 10 _).mem hp))
  · have hld : ld = ((groupSum t "Drivers").insertionSort revGE).take 10 := by
      by_cases h : (hasCol t "Drivers" && hasCol t "Net Amount") = true
      · rw [driverRev, if_pos h, Option.some.injEq] at hd
        exact hd.symm
      · rw [driverRev, if_neg h] at hd
        cases hd
    subst hld
    refine ⟨?_, ?_, ?_⟩
    · rw [List.length_take]; exact min_le_left _ _
    · exact List.Pairwise.sublist (List.take_sublist 10 _)
        (List.sorted_insertionSort revGE _)
    · intro p hp
      exact mem_groupSum t "Drivers" p
        ((List.mem_insertionSort revGE).mp ((List.take_sublist 10 _).mem hp))
  · have hlcat : lcat = groupSum t "Category" := by
      by_cases h : (hasCol t "Category" && hasCol t "Net Amount") = true
      · rw [catRev, if_pos h, Option.some.injEq] at hcat
        exact hcat.symm
      · rw [catRev, if_neg h] at hcat
        cases hcat
    subst hlcat
    exact ⟨groupSum_fst t "Category", fun p hp => mem_groupSum t "Category" p hp⟩

/-- A two-row table exercising every grouped view. -/
def exTopT : Table :=
  { cols := ["Booked By", "Route", "Category", "Drivers", "Net Amount"]
    rows :=
      [[("Booked By", Value.str "Web"), ("Route", Value.str "A-B"),
        ("Category", Value.str "Bus"), ("Drivers", Value.str "D1"),
        ("Net Amount", Value.num 100)],
       [("Booked By", Value.str "Web"), ("Route", Value.str "A-B"),
        ("Category", Value.str "Train"), ("Drivers", Value.str "D1"),
        ("Net Amount", Value.num 50)]] }

/-- A table with a `Booked By` column but no `Net Amount`: only the
Channels view is produced. -/
def exChanT : Table :=
  { cols := ["Booked By"]
    rows := [[("Booked By", Value.str "Web")], [("Booked By", Value.str "App")]] }

/-- **C6 (witness)**: on the two-row example the channel list is one entry
within the cap, the category view lists every distinct category, and the
route entry records the 150 revenue sum; on a table with `Booked By` but no
`Net Amount` the Channels view alone is produced and stays within the cap. -/
theorem topN_spec_witness :
    ([(Value.str "Web", 2)] : List (Value × Nat)).length ≤ 10 ∧
      ([(Value.str "Bus", (100 : Int)), (Value.str "Train", 50)].map Prod.fst =
        ((exTopT.rows.map (fun r => getCell r "Category")).filter
          (fun v => !(v == Value.null))).dedup) ∧
      ((Value.str "A-B", (150 : Int)).2 =
        netSum (exTopT.rows.filter
          (fun r => getCell r "Route" == (Value.str "A-B", (150 : Int)).1))) ∧
      ([(Value.str "Web", 1), (Value.str "App", 1)] : List (Value × Nat)).length ≤ 10 :=
  ⟨((topN_spec exTopT).1 [(Value.str "Web", 2)] rfl).1,
    ((topN_spec exTopT).2.2.2 [(Value.str "Bus", 100), (Value.str "Train", 50)] rfl).1,
    ((topN_spec exTopT).2.1 [(Value.str "A-B", 150)] rfl).2.2 _ (by decide),
    ((topN_spec exChanT).1 [(Value.str "Web", 1), (Value.str "App", 1)] rfl).1⟩

/-- Whether a cell holds a parsed date.  After `load_data` the
`Journey Date` column holds only dates and nulls, so this is exactly
"non-null" there. -/
def isDate : Value → Bool
  | Value.date _ => true
  | _ => false

theorem lookupCount_valueCounts (vs : List Value) (k : Value) (hk : k ≠ Value.null) :
    lookupCount (valueCounts vs) k = vs.count k := by
  rw [lookupCount]
  cases hf : (valueCounts vs).find? (fun p => p.1 == k) with
  | some p =>
    have hpk : p.1 = k := by simpa using List.find?_some hf
    have hp2 := mem_valueCounts vs p (List.mem_of_find?_eq_some hf)
    simp [hp2, hpk]
  | none =>
    have hall := List.find?_eq_none.mp hf
    have hcz : vs.count k = 0 := by
      by_contra hne
      have hkin : k ∈ vs := List.count_pos_iff.mp (Nat.pos_of_ne_zero hne)
      have hkf : k ∈ vs.filter (fun v => !(v == Value.null)) :=
        List.mem_filter.mpr ⟨hkin, by simpa using hk⟩
      have hmem : (k, vs.count k) ∈ valueCounts vs :=
        (List.mem_insertionSort cntGE).mpr
          (List.mem_map.mpr ⟨k, List.mem_dedup.mpr hkf, rfl⟩)
      exact hall _ hmem (by simp)
    simp [hcz]

theorem weekdayName_cases (v : Value) :
    weekdayName v = Value.null ∨ ∃ d ∈ dayOrder, weekdayName v = Value.str d := by
  cases v with
  | date x =>
    right
    have h0 : 0 ≤ x % 7 := Int.emod_nonneg x (by norm_num)
    have h1 : x % 7 < 7 := Int.emod_lt_of_pos x (by norm_num)
    have h7 : (x % 7).toNat < 7 := by omega
    refine ⟨dayOrder.getD (x % 7).toNat "Monday", ?_, rfl⟩
    set n := (x % 7).toNat with hn
    interval_cases n <;> decide
  | str s => left; rfl
  | num n => left; rfl
  | null => left; rfl

theorem weekdayName_nonnull_iff (v : Value) :
    (!(weekdayName v == Value.null)) = isDate v := by
  cases v <;> rfl

theorem sum_map_add_nat (l : List String) (f g : String → Nat) :
    (l.map (fun d => f d + g d)).sum = (l.map f).sum + (l.map g).sum := by
  induction l with
  | nil => rfl
  | cons x xs ih =>
    simp only [List.map_cons, List.sum_cons, ih]
    omega

theorem day_indicator_sum (v : Value)
    (hv : v = Value.null ∨ ∃ d ∈ dayOrder, v = Value.str d) :
    (dayOrder.map (fun d => if v == Value.str d then 1 else 0)).sum =
      if v == Value.null then 0 else 1 := by
  rcases hv with h | ⟨d, hd, h⟩
  · subst h; decide
  · subst h
    fin_cases hd <;> decide

theorem sum_day_counts (vs : List Value)
    (hv : ∀ v ∈ vs, v = Value.null ∨ ∃ d ∈ dayOrder, v = Value.str d) :
    (dayOrder.map (fun d => vs.count (Value.str d))).sum =
      (vs.filter (fun v => !(v == Value.null))).length := by
  induction vs with
  | nil => decide
  | cons v rest ih =>
    have hvr : ∀ w ∈ rest, w = Value.null ∨ ∃ d ∈ dayOrder, w = Value.str d :=
      fun w hw => hv w (List.mem_cons_of_mem v hw)
    have hvh := hv v (List.mem_cons_self v rest)
    have hcount : (fun d => List.count (Value.str d) (v :: rest)) =
        fun d => List.count (Value.str d) rest + (if v == Value.str d then 1 else 0) := by
      funext d
      rw [List.count_cons]
    rw [hcount, sum_map_add_nat, ih hvr, day_indicator_sum v hvh, List.filter_cons]
    cases hn : v == Value.null <;> simp [hn]

/-- **C4**: whenever the weekday view is produced it has exactly 7 entries
whose keys are Monday..Sunday in that order, every entry's count is the
number of rows whose `Journey Date` falls on that weekday (so a day with no
bookings appears with count 0), and the counts sum to the number of rows
carrying a parsed (non-null) `Journey Date`. -/
theorem weekdayDemand_spec (t : Table) (l : List (String × Nat))
    (h : weekdayDemand t = some l) :
    l.length = 7 ∧ l.map Prod.fst = dayOrder ∧
      (∀ p ∈ l, p.2 = (t.rows.filter
        (fun r => weekdayName (getCell r "Journey Date") == Value.str p.1)).length) ∧
      (l.map Prod.snd).sum =
        (t.rows.filter (fun r => isDate (getCell r "Journey Date"))).length := by
  have hl : l = dayOrder.map (fun d =>
      (d, lookupCount
        (valueCounts (t.rows.map (fun r => weekdayName (getCell r "Journey Date"))))
        (Value.str d))) := by
    by_cases hc : hasCol t "Journey Date" = true
    · rw [weekdayDemand, if_pos hc, Option.some.injEq] at h
      exact h.symm
    · rw [weekdayDemand, if_neg hc] at h
      cases h
  subst hl
  refine ⟨by rw [List.length_map]; rfl, by rw [List.map_map]; exact List.map_id _, ?_, ?_⟩
  · intro p hp
    obtain ⟨d, _, rfl⟩ := List.mem_map.mp hp
    dsimp only
    rw [lookupCount_valueCounts _ _ (fun hx => Value.noConfusion hx), List.count_eq_countP,
      List.countP_map, List.countP_eq_length_filter]
    rfl
  have h1 : (dayOrder.map (fun d =>
      (d, lookupCount
        (valueCounts (t.rows.map (fun r => weekdayName (getCell r "Journey Date"))))
        (Value.str d)))).map Prod.snd =
      dayOrder.map (fun d =>
        (t.rows.map (fun r => weekdayName (getCell r "Journey Date"))).count (Value.str d)) := by
    rw [List.map_map]
    exact List.map_congr_left (fun d _ =>
      lookupCount_valueCounts _ (Value.str d) (fun hx => Value.noConfusion hx))
  have hv : ∀ v ∈ t.rows.map (fun r => weekdayName (getCell r "Journey Date")),
      v = Value.null ∨ ∃ d ∈ dayOrder, v = Value.str d := by
    intro v hvm
    obtain ⟨r, _, rfl⟩ := List.mem_map.mp hvm
    exact weekdayName_cases _
  have h2 : ((t.rows.map (fun r => weekdayName (getCell r "Journey Date"))).filter
      (fun v => !(v == Value.null))).length =
      (t.rows.filter (fun r => isDate (getCell r "Journey Date"))).length := by
    rw [List.filter_map, List.length_map]
    congr 1
    apply List.filter_congr
    intro r _
    exact weekdayName_nonnull_iff (getCell r "Journey Date")
  rw [h1, sum_day_counts _ hv, h2]

/-- Two Monday journeys (dates 0 and 7; day 0 is a Monday). -/
def exWeekT : Table :=
  { cols := ["Journey Date"]
    rows := [[("Journey Date", Value.date 0)], [("Journey Date", Value.date 7)]] }

/-- **C4 (witness)**: the spec scenario — two Monday bookings give
[("Monday", 2), ("Tuesday", 0), ..., ("Sunday", 0)]; in particular the
zero-booking Tuesday appears with count 0, the count of its journeys. -/
theorem weekdayDemand_spec_witness :
    ([("Monday", 2), ("Tuesday", 0), ("Wednesday", 0), ("Thursday", 0), ("Friday", 0),
        ("Saturday", 0), ("Sunday", 0)] : List (String × Nat)).length = 7 ∧
      ([("Monday", 2), ("Tuesday", 0), ("Wednesday", 0), ("Thursday", 0), ("Friday", 0),
          ("Saturday", 0), ("Sunday", 0)] : List (String × Nat)).map Prod.fst = dayOrder ∧
      (0 : Nat) = (exWeekT.rows.filter
        (fun r => weekdayName (getCell r "Journey Date") == Value.str "Tuesday")).length ∧
      (([("Monday", 2), ("Tuesday", 0), ("Wednesday", 0), ("Thursday", 0), ("Friday", 0),
          ("Saturday", 0), ("Sunday", 0)] : List (String × Nat)).map Prod.snd).sum =
        (exWeekT.rows.filter (fun r => isDate (getCell r "Journey Date"))).length :=
  ⟨(weekdayDemand_spec exWeekT
      [("Monday", 2), ("Tuesday", 0), ("Wednesday", 0), ("Thursday", 0), ("Friday", 0),
        ("Saturday", 0), ("Sunday", 0)] (by decide)).1,
    (weekdayDemand_spec exWeekT
      [("Monday", 2), ("Tuesday", 0), ("Wednesday", 0), ("Thursday", 0), ("Friday", 0),
        ("Saturday", 0), ("Sunday", 0)] (by decide)).2.1,
    (weekdayDemand_spec exWeekT
      [("Monday", 2), ("Tuesday", 0), ("Wednesday", 0), ("Thursday", 0), ("Friday", 0),
        ("Saturday", 0), ("Sunday", 0)] (by decide)).2.2.1 ("Tuesday", 0) (by decide),
    (weekdayDemand_spec exWeekT
      [("Monday", 2), ("Tuesday", 0), ("Wednesday", 0), ("Thursday", 0), ("Friday", 0),
        ("Saturday", 0), ("Sunday", 0)] (by decide)).2.2.2⟩
